import Mathlib

/-!
Verification of the exclusion-mask workflow of the gammapy tutorial
`docs/tutorials/exclusion_mask.ipynb`.

The notebook builds boolean exclusion masks over a WCS pixel grid:
from lists of sky regions (`geom.region_mask(regions, inside=False)`),
by elementwise arithmetic combination (`mask_map *= mask_map_catalog`),
from a significance map with a scalar threshold and NaN repair
(`result["sqrt_ts"] < 5.0` followed by `data[invalid_pixels] = True`),
and serialises masks through an explicit bool/int cast
(`.astype(int)` before `write`, `.astype(bool)` after `read`).

The library operations the notebook calls (WcsGeom, Map arithmetic and
I/O) are part of the gammapy code base but are not included in the
sources we verify, so they are modelled from the specification, as
noted on each definition.
-/

namespace ExclusionMask

/-- Modelled from the spec: a `WcsGeom` Grid, "created once from a center
position, angular width, and pixel size"; a two-dimensional array of cells
with a coordinate-system mapping from cell index to sky position.  The
shape is `nx × ny` pixels and the mapping is determined by the remaining
fields. -/
structure Grid where
  nx : Nat
  ny : Nat
  center : ℚ × ℚ
  binsz : ℚ
deriving DecidableEq, Repr

/-- A sky position, as a pair of coordinates. -/
def Pos : Type := ℚ × ℚ

instance : DecidableEq Pos := instDecidableEqProd

/-- Modelled from the spec: the Grid's "mapping from cell index to sky
position".  A linear pixel-to-coordinate map determined by the grid's
center and pixel size; the claims under verification never depend on the
particular form of the map, only on it being a function of the grid. -/
def pixToSky (g : Grid) (i j : Nat) : Pos :=
  (g.center.1 + g.binsz * ((i : ℚ) - (g.nx : ℚ) / 2),
   g.center.2 + g.binsz * ((j : ℚ) - (g.ny : ℚ) / 2))

/-- Modelled from the spec: a Region is "a geometric shape ... with a test
operation: does this region contain sky position P", modelled "as a tagged
variant or interface with a single required capability:
contains(position) -> bool". -/
structure Region where
  contains : Pos → Bool

/-- A boolean mask map: a grid of boolean values co-registered with a
`Grid` (`Map.from_geom(geom, data=mask_data)` in the notebook).  The data
is stored row by row: `data[j][i]` is the cell at pixel `(i, j)`. -/
structure Mask where
  grid : Grid
  data : List (List Bool)
deriving DecidableEq, Repr

/-- Build grid-shaped boolean data from a per-cell function. -/
def mkData (g : Grid) (f : Nat → Nat → Bool) : List (List Bool) :=
  (List.range g.ny).map fun j => (List.range g.nx).map fun i => f i j

/-- The constant mask over a grid (e.g. an all-`True` or all-`False`
mask). -/
def constMask (g : Grid) (b : Bool) : Mask :=
  { grid := g, data := mkData g fun _ _ => b }

/-- Modelled from the spec: `geom.region_mask(regions, inside=False)`:
"for each cell in the Grid, compute its sky position, test membership
against each Region, set cell to `False` on first match", i.e. a cell is
`False` iff its sky position falls inside ANY region of the collection,
else `True`; packaged into a `Map` as in the notebook
(`Map.from_geom(geom, data=mask_data)`). -/
def region_mask (g : Grid) (rs : List Region) : Mask :=
  { grid := g
    data := mkData g fun i j => !(rs.any fun r => r.contains (pixToSky g i j)) }

/-- Read the cell at pixel `(i, j)` of a mask; `none` when out of range. -/
def cell (m : Mask) (i j : Nat) : Option Bool :=
  (m.data[j]?).bind fun row => row[i]?

/-- The mask's data has exactly the shape of its grid. -/
def wellFormed (m : Mask) : Prop :=
  m.data.length = m.grid.ny ∧ ∀ row ∈ m.data, row.length = m.grid.nx

instance (m : Mask) : Decidable (wellFormed m) := by
  unfold wellFormed; infer_instance

/-- Modelled from the spec: the error "raised when combining two masks
... that do not share an identical grid; not recoverable locally,
surfaced to caller". -/
inductive MaskError where
  | shapeMismatch
deriving DecidableEq, Repr

/-- Modelled from the spec: mask combination (`mask_map *= mask_map_catalog`):
"given two Masks sharing an identical Grid, produce a Mask whose cell
values are the logical AND of the two inputs"; on masks whose grids
differ it "fails with a ShapeMismatch error". -/
def combine (a b : Mask) : Except MaskError Mask :=
  if a.grid = b.grid then
    .ok { grid := a.grid, data := List.zipWith (List.zipWith and) a.data b.data }
  else
    .error .shapeMismatch

-- Generic cell lookup over grid-shaped data, used by the cell-level
-- theorems below.

theorem mkData_get (g : Grid) (f : Nat → Nat → Bool) {i j : Nat}
    (hi : i < g.nx) (hj : j < g.ny) :
    ((mkData g f)[j]?).bind (fun row => row[i]?) = some (f i j) := by
  simp [mkData, List.getElem?_map, List.getElem?_range, hi, hj]

/-- Cell values of `region_mask`. -/
theorem region_mask_cell (g : Grid) (rs : List Region) {i j : Nat}
    (hi : i < g.nx) (hj : j < g.ny) :
    cell (region_mask g rs) i j
      = some (!(rs.any fun r => r.contains (pixToSky g i j))) := by
  simp only [cell, region_mask]
  exact mkData_get g _ hi hj

/-- An example grid and region used to instantiate the universally
quantified theorems at concrete inputs. -/
def gEx : Grid := { nx := 10, ny := 10, center := (0, 0), binsz := 1 }

/-- A concrete circular-box-like region: contains positions with both
coordinates at most `2` in absolute value. -/
def rEx : Region :=
  { contains := fun p => decide (-2 ≤ p.1 ∧ p.1 ≤ 2 ∧ -2 ≤ p.2 ∧ p.2 ≤ 2) }

/-- C3: a cell of the region-built mask is `False` exactly when the
cell's sky position lies inside at least one region of the collection,
and `True` otherwise. -/
theorem region_mask_false_iff_mem (g : Grid) (rs : List Region) {i j : Nat}
    (hi : i < g.nx) (hj : j < g.ny) :
    (cell (region_mask g rs) i j = some false
        ↔ ∃ r ∈ rs, r.contains (pixToSky g i j) = true)
      ∧ (cell (region_mask g rs) i j = some true
        ↔ ∀ r ∈ rs, r.contains (pixToSky g i j) = false) := by
  rw [region_mask_cell g rs hi hj]
  constructor
  · simp [List.any_eq_true]
  · simp [List.any_eq_false]

/-- Witness for C3: in the example grid, pixel `(5, 5)` maps to a sky
position inside the example region, so its cell is `False`; the theorem
is applied at that concrete input. -/
theorem region_mask_false_iff_mem_witness :
    cell (region_mask gEx [rEx]) 5 5 = some false := by
  apply ((region_mask_false_iff_mem gEx [rEx] (by decide) (by decide)).1).2
  refine ⟨rEx, by simp, ?_⟩
  simp only [rEx, pixToSky, gEx, decide_eq_true_eq]
  norm_num

/-- C4: the mask built from the empty region list is `True` at every
cell. -/
theorem region_mask_nil (g : Grid) {i j : Nat}
    (hi : i < g.nx) (hj : j < g.ny) :
    cell (region_mask g []) i j = some true := by
  rw [region_mask_cell g [] hi hj]
  simp

/-- Witness for C4: the empty-region mask over the example grid is `True`
at pixel `(0, 0)`. -/
theorem region_mask_nil_witness :
    cell (region_mask gEx []) 0 0 = some true :=
  region_mask_nil gEx (by decide) (by decide)

-- Pointwise algebra of grid-shaped data, used by the combination and
-- concatenation theorems.

theorem mkData_zipWith_and (g : Grid) (f h : Nat → Nat → Bool) :
    List.zipWith (List.zipWith and) (mkData g f) (mkData g h)
      = mkData g fun i j => f i j && h i j := by
  simp only [mkData, List.zipWith_map, List.zipWith_same]

theorem region_mask_append_data (g : Grid) (r1 r2 : List Region) :
    (region_mask g (r1 ++ r2)).data
      = List.zipWith (List.zipWith and)
          (region_mask g r1).data (region_mask g r2).data := by
  show mkData g _ = List.zipWith _ (mkData g _) (mkData g _)
  rw [mkData_zipWith_and]
  simp only [List.any_append, Bool.not_or]

/-- C5: the mask built from a concatenated region list is the elementwise
AND of the masks built from the two lists; equivalently, combining the
two partial masks succeeds and returns exactly the mask of the
concatenation. -/
theorem region_mask_append (g : Grid) (r1 r2 : List Region) :
    (region_mask g (r1 ++ r2)).data
        = List.zipWith (List.zipWith and)
            (region_mask g r1).data (region_mask g r2).data
      ∧ combine (region_mask g r1) (region_mask g r2)
        = .ok (region_mask g (r1 ++ r2)) := by
  refine ⟨region_mask_append_data g r1 r2, ?_⟩
  unfold combine
  rw [if_pos (show (region_mask g r1).grid = (region_mask g r2).grid from rfl),
    ← region_mask_append_data g r1 r2]
  rfl

-- Commutativity and associativity of the elementwise AND on nested
-- boolean lists.

theorem zipWith_and_comm (x y : List Bool) :
    List.zipWith and x y = List.zipWith and y x :=
  List.zipWith_comm_of_comm and Bool.and_comm x y

theorem zipWith2_and_comm (x y : List (List Bool)) :
    List.zipWith (List.zipWith and) x y = List.zipWith (List.zipWith and) y x :=
  List.zipWith_comm_of_comm _ zipWith_and_comm x y

theorem zipWith_and_assoc (x y z : List Bool) :
    List.zipWith and (List.zipWith and x y) z
      = List.zipWith and x (List.zipWith and y z) := by
  rw [List.zipWith_zipWith_left, List.zipWith_zipWith_right]
  have : (fun a b c => and (and a b) c) = fun (a b c : Bool) => and a (and b c) := by
    funext a b c
    exact Bool.and_assoc a b c
  rw [this]

theorem zipWith2_and_assoc (x y z : List (List Bool)) :
    List.zipWith (List.zipWith and) (List.zipWith (List.zipWith and) x y) z
      = List.zipWith (List.zipWith and) x (List.zipWith (List.zipWith and) y z) := by
  rw [List.zipWith_zipWith_left, List.zipWith_zipWith_right]
  have : (fun a b c => List.zipWith and (List.zipWith and a b) c)
      = fun (a b c : List Bool) => List.zipWith and a (List.zipWith and b c) := by
    funext a b c
    exact zipWith_and_assoc a b c
  rw [this]

/-- C7: mask combination is commutative, and associative under `Except`
sequencing, so combining N masks is independent of the pairing order. -/
theorem combine_comm_assoc :
    (∀ a b : Mask, combine a b = combine b a)
      ∧ ∀ a b c : Mask,
        (combine a b).bind (fun ab => combine ab c)
          = (combine b c).bind fun bc => combine a bc := by
  constructor
  · intro a b
    unfold combine
    by_cases h : a.grid = b.grid
    · rw [if_pos h, if_pos h.symm, h, zipWith2_and_comm]
    · rw [if_neg h, if_neg fun hh => h hh.symm]
  · intro a b c
    unfold combine
    by_cases hab : a.grid = b.grid
    · by_cases hbc : b.grid = c.grid
      · rw [if_pos hab, if_pos hbc]
        simp only [Except.bind]
        rw [if_pos (show a.grid = c.grid from hab.trans hbc), if_pos hab,
          zipWith2_and_assoc]
      · rw [if_pos hab, if_neg hbc]
        simp only [Except.bind]
        rw [if_neg (show ¬a.grid = c.grid from fun h => hbc (hab.symm.trans h))]
    · by_cases hbc : b.grid = c.grid
      · rw [if_neg hab, if_pos hbc]
        simp only [Except.bind]
        rw [if_neg hab]
      · rw [if_neg hab, if_neg hbc]
        simp only [Except.bind]

-- The bool/int casts of the serialisation adapter (cells 37 and 38 of
-- the notebook): `.astype(int)` maps True to 1 and False to 0, and
-- `.astype(bool)` maps an integer to whether it is nonzero.

/-- `.astype(int)` at cell level: `True ↦ 1`, `False ↦ 0`. -/
def boolToInt (b : Bool) : Int :=
  if b then 1 else 0

/-- `.astype(bool)` at cell level: an integer casts to `True` iff it is
nonzero. -/
def intToBool (n : Int) : Bool :=
  decide (n ≠ 0)

theorem zipWith_and_replicate_false (row : List Bool) :
    List.zipWith and (List.replicate row.length false) row
      = List.replicate row.length false := by
  induction row with
  | nil => rfl
  | cons x xs ih => simp [List.replicate_succ, ih]

theorem zipWith2_and_false (d : List (List Bool)) (n : Nat)
    (h : ∀ row ∈ d, row.length = n) :
    List.zipWith (List.zipWith and)
        (List.replicate d.length (List.replicate n false)) d
      = List.replicate d.length (List.replicate n false) := by
  induction d with
  | nil => rfl
  | cons r rs ih =>
      have hr : r.length = n := h r (by simp)
      simp only [List.length_cons, List.replicate_succ, List.zipWith_cons_cons]
      rw [← hr, zipWith_and_replicate_false r, hr,
        ih fun row hrow => h row (by simp [hrow])]

theorem mkData_const (g : Grid) (b : Bool) :
    mkData g (fun _ _ => b) = List.replicate g.ny (List.replicate g.nx b) := by
  simp [mkData, List.map_const']

/-- C6: combining two masks on one grid takes the elementwise logical
AND of their data, cell for cell; multiplying the 0/1 integer casts of
two cells agrees with AND; an all-`True` mask combined with itself stays
all-`True`; and an all-`False` mask combined with any well-formed mask on
the same grid is all-`False`. -/
theorem combine_is_and (a b : Mask) (h : a.grid = b.grid) (hb : wellFormed b) :
    combine a b
        = .ok { grid := a.grid
                data := List.zipWith (List.zipWith and) a.data b.data }
      ∧ (∀ i j va vb, cell a i j = some va → cell b i j = some vb →
          ∀ c, combine a b = .ok c → cell c i j = some (va && vb))
      ∧ (∀ x y : Bool, intToBool (boolToInt x * boolToInt y) = (x && y))
      ∧ combine (constMask a.grid true) (constMask a.grid true)
        = .ok (constMask a.grid true)
      ∧ combine (constMask b.grid false) b = .ok (constMask b.grid false) := by
  have hok : combine a b
      = .ok { grid := a.grid
              data := List.zipWith (List.zipWith and) a.data b.data } := by
    unfold combine
    rw [if_pos h]
  refine ⟨hok, ?_, ?_, ?_, ?_⟩
  · intro i j va vb ha hb' c hc
    rw [hok] at hc
    cases hc
    simp only [cell, Option.bind_eq_some] at ha hb' ⊢
    obtain ⟨rowa, hrowa, hva⟩ := ha
    obtain ⟨rowb, hrowb, hvb⟩ := hb'
    refine ⟨List.zipWith and rowa rowb, ?_, ?_⟩
    · rw [List.getElem?_zipWith, hrowa, hrowb]
    · rw [List.getElem?_zipWith, hva, hvb]
  · intro x y
    cases x <;> cases y <;> rfl
  · unfold combine
    rw [if_pos rfl]
    have hd : List.zipWith (List.zipWith and)
        (constMask a.grid true).data (constMask a.grid true).data
        = (constMask a.grid true).data := by
      show List.zipWith _ (mkData _ _) (mkData _ _) = mkData _ _
      rw [mkData_zipWith_and]
      simp only [Bool.and_self]
    rw [hd]
  · unfold combine
    rw [if_pos (show (constMask b.grid false).grid = b.grid from rfl)]
    have hd : List.zipWith (List.zipWith and) (constMask b.grid false).data b.data
        = (constMask b.grid false).data := by
      show List.zipWith _ (mkData _ _) _ = mkData _ _
      rw [mkData_const, show b.grid.ny = b.data.length from hb.1.symm]
      exact zipWith2_and_false b.data b.grid.nx hb.2
    rw [hd]

/-- Witness for C6: instantiated on two concrete well-formed 2×2 masks
over one grid. -/
theorem combine_is_and_witness :
    combine { grid := { nx := 2, ny := 2, center := (0, 0), binsz := 1 }
              data := [[true, false], [true, true]] }
            { grid := { nx := 2, ny := 2, center := (0, 0), binsz := 1 }
              data := [[true, true], [false, true]] }
      = .ok { grid := { nx := 2, ny := 2, center := (0, 0), binsz := 1 }
              data := [[true, false], [false, true]] } := by
  have := combine_is_and
    { grid := { nx := 2, ny := 2, center := (0, 0), binsz := 1 }
      data := [[true, false], [true, true]] }
    { grid := { nx := 2, ny := 2, center := (0, 0), binsz := 1 }
      data := [[true, true], [false, true]] }
    rfl (by decide)
  rw [this.1]
  rfl

/-- C8: combining fails with `ShapeMismatch` exactly when the two grids
differ (in shape or coordinate parameters), and succeeds exactly when the
grids are identical — it never truncates or broadcasts. -/
theorem combine_mismatch_iff (a b : Mask) :
    (combine a b = .error .shapeMismatch ↔ a.grid ≠ b.grid)
      ∧ ((∃ c, combine a b = .ok c) ↔ a.grid = b.grid) := by
  unfold combine
  by_cases h : a.grid = b.grid
  · rw [if_pos h]
    refine ⟨⟨fun hc => (by cases hc), fun hne => absurd h hne⟩, ?_⟩
    exact ⟨fun _ => h, fun _ => ⟨_, rfl⟩⟩
  · rw [if_neg h]
    refine ⟨⟨fun _ => h, fun _ => rfl⟩, ?_⟩
    refine ⟨fun hex => ?_, fun hc => absurd hc h⟩
    obtain ⟨c, hc⟩ := hex
    cases hc

-- Significance-derived masks (notebook cells 31-33):
--   mask_map_significance = result["sqrt_ts"] < 5.0
--   invalid_pixels = np.isnan(result["sqrt_ts"].data)
--   mask_map_significance.data[invalid_pixels] = True

/-- A floating-point cell value of a significance map: either the
not-a-number sentinel or an ordinary (finite) value. -/
inductive FloatVal where
  | nan
  | val (q : ℚ)
deriving DecidableEq, Repr

/-- `np.isnan` at cell level. -/
def isNan : FloatVal → Bool
  | .nan => true
  | .val _ => false

/-- IEEE comparison of a cell value against a finite threshold: any
comparison with NaN is `false`. -/
def fltLt (x : FloatVal) (t : ℚ) : Bool :=
  match x with
  | .nan => false
  | .val q => decide (q < t)

/-- A significance map (e.g. the `sqrt_ts` output of the excess
estimator): a grid of floating-point values, possibly NaN. -/
structure SignificanceMap where
  grid : Grid
  data : List (List FloatVal)
deriving DecidableEq, Repr

/-- Read the significance value at pixel `(i, j)`. -/
def sigCell (s : SignificanceMap) (i j : Nat) : Option FloatVal :=
  (s.data[j]?).bind fun row => row[i]?

/-- Modelled from the spec: the Map comparison `result["sqrt_ts"] < 5.0`
produces a boolean mask, elementwise, with IEEE semantics (NaN compares
`false`). -/
def sig_lt_mask (s : SignificanceMap) (t : ℚ) : Mask :=
  { grid := s.grid, data := s.data.map fun row => row.map fun v => fltLt v t }

/-- The NaN repair of notebook cell 33:
`mask.data[np.isnan(s.data)] = True` — every cell whose significance is
NaN is forced to `True`. -/
def set_invalid_true (s : SignificanceMap) (m : Mask) : Mask :=
  { grid := m.grid
    data := List.zipWith (List.zipWith fun v b => if isNan v then true else b)
      s.data m.data }

/-- The full significance-threshold mask construction of cells 31-33. -/
def mask_map_significance (s : SignificanceMap) (t : ℚ) : Mask :=
  set_invalid_true s (sig_lt_mask s t)

theorem mask_map_significance_cell (s : SignificanceMap) (t : ℚ)
    {i j : Nat} {v : FloatVal} (h : sigCell s i j = some v) :
    cell (mask_map_significance s t) i j
      = some (if isNan v then true else fltLt v t) := by
  simp only [sigCell, Option.bind_eq_some] at h
  obtain ⟨row, hrow, hv⟩ := h
  simp only [cell, mask_map_significance, set_invalid_true, sig_lt_mask,
    List.getElem?_zipWith, List.getElem?_map, hrow, hv, Option.map_some',
    Option.some_bind]

/-- An example significance map used to instantiate the significance
theorems at concrete inputs. -/
def sEx : SignificanceMap :=
  { grid := { nx := 2, ny := 2, center := (0, 0), binsz := 1 }
    data := [[.nan, .val 3], [.val 7, .nan]] }

/-- C1: a cell whose significance value is the NaN sentinel is `True` in
the output mask, whatever the threshold. -/
theorem mask_map_significance_nan (s : SignificanceMap) (t : ℚ) {i j : Nat}
    (h : sigCell s i j = some .nan) :
    cell (mask_map_significance s t) i j = some true := by
  rw [mask_map_significance_cell s t h]
  rfl

/-- Witness for C1: the NaN cell `(0, 0)` of the example map stays `True`
even under an extremely low threshold. -/
theorem mask_map_significance_nan_witness :
    cell (mask_map_significance sEx (-100)) 0 0 = some true :=
  mask_map_significance_nan sEx (-100) rfl

/-- C9: a cell with a non-NaN significance value `q` is `True` in the
output mask exactly when `q < t`, and `False` exactly when `t ≤ q` —
cells at the threshold are excluded. -/
theorem mask_map_significance_threshold (s : SignificanceMap) (t : ℚ)
    {i j : Nat} {q : ℚ} (h : sigCell s i j = some (.val q)) :
    cell (mask_map_significance s t) i j = some (decide (q < t))
      ∧ (q < t → cell (mask_map_significance s t) i j = some true)
      ∧ (t ≤ q → cell (mask_map_significance s t) i j = some false) := by
  have hc : cell (mask_map_significance s t) i j = some (decide (q < t)) := by
    rw [mask_map_significance_cell s t h]
    rfl
  refine ⟨hc, fun hlt => ?_, fun hge => ?_⟩
  · rw [hc, decide_eq_true hlt]
  · rw [hc, decide_eq_false (not_lt.mpr hge)]

/-- Witness for C9: the cell `(1, 0)` of the example map holds the value
`3`, which is below the threshold `5`, so the cell is kept. -/
theorem mask_map_significance_threshold_witness :
    cell (mask_map_significance sEx 5) 1 0 = some true :=
  (@mask_map_significance_threshold sEx 5 1 0 3 rfl).2.1 (by norm_num)

-- Serialisation (notebook cells 37-38):
--   mask_map_int = mask_map.copy()
--   mask_map_int.data = mask_map_int.data.astype(int)
--   mask_map_int.write("exclusion_mask.fits", overwrite="True")
--   mask_map = Map.read("exclusion_mask.fits")
--   mask_map.data = mask_map.data.astype(bool)

/-- The data block of a `Map` object: boolean before the cast, integer
after `.astype(int)` or after reading from the file. -/
inductive MapData where
  | boolData (d : List (List Bool))
  | intData (d : List (List Int))
deriving DecidableEq, Repr

/-- A `Map` object as manipulated by the notebook: a geometry plus a
data block whose element type can change under `.astype`. -/
structure MapObj where
  grid : Grid
  data : MapData
deriving DecidableEq, Repr

/-- `.astype(int)` on a whole data block (True ↦ 1, False ↦ 0). -/
def astypeInt : MapData → MapData
  | .boolData d => .intData (d.map fun row => row.map boolToInt)
  | .intData d => .intData d

/-- `.astype(bool)` on a whole data block (nonzero ↦ True). -/
def astypeBool : MapData → MapData
  | .boolData d => .boolData d
  | .intData d => .boolData (d.map fun row => row.map intToBool)

/-- Modelled from the spec: the persisted FITS file, a "self-describing
binary astronomical file format" holding a grid "with integer or float
cell values"; it "does not natively support boolean cell values". -/
structure FitsFile where
  grid : Grid
  data : List (List Int)
deriving DecidableEq, Repr

/-- Modelled from the spec: `Map.write` persists an integer-valued map;
a map with boolean content "cannot directly" be written. -/
def map_write (o : MapObj) : Option FitsFile :=
  match o.data with
  | .intData d => some { grid := o.grid, data := d }
  | .boolData _ => none

/-- Modelled from the spec: `Map.read` recovers the integer-valued map
stored in the file. -/
def map_read (f : FitsFile) : MapObj :=
  { grid := f.grid, data := .intData f.data }

/-- View a boolean mask as a `Map` object. -/
def maskToObj (m : Mask) : MapObj :=
  { grid := m.grid, data := .boolData m.data }

/-- Placeholder object returned by out-of-range heap reads. -/
def defaultObj : MapObj :=
  { grid := { nx := 0, ny := 0, center := (0, 0), binsz := 0 }
    data := .boolData [] }

/-- Modelled from the spec: `Map.copy` allocates a fresh object holding
the same value; the heap is the list of live objects and a reference is
an index into it. -/
def heapCopy (h : List MapObj) (r : Nat) : List MapObj × Nat :=
  (h ++ [h.getD r defaultObj], h.length)

/-- In-place update of the `data` field of the object a reference points
to (`obj.data = ...` in the notebook). -/
def heapSetData (h : List MapObj) (r : Nat) (d : MapData) : List MapObj :=
  match h[r]? with
  | some o => h.set r { o with data := d }
  | none => h

/-- The write procedure of notebook cell 37, with explicit references:
the variable `mask_map` is heap index 0; `mask_map_int` is the reference
returned by `copy`; the cast mutates only the object `mask_map_int`
points to, and the file is written from that object.  Returns the final
heap together with the written file. -/
def write_step (m : MapObj) : List MapObj × Option FitsFile :=
  let h0 := [m]
  let p := heapCopy h0 0
  let h1 := p.1
  let rInt := p.2
  let h2 := heapSetData h1 rInt (astypeInt (h1.getD rInt defaultObj).data)
  (h2, map_write (h2.getD rInt defaultObj))

/-- The read procedure of notebook cell 38: `Map.read` followed by the
`.astype(bool)` cast. -/
def read_step (f : FitsFile) : MapObj :=
  let m := map_read f
  { m with data := astypeBool m.data }

theorem intToBool_boolToInt (b : Bool) : intToBool (boolToInt b) = b := by
  cases b <;> rfl

theorem astypeBool_astypeInt (d : List (List Bool)) :
    astypeBool (astypeInt (.boolData d)) = .boolData d := by
  simp only [astypeInt, astypeBool, List.map_map, MapData.boolData.injEq]
  have h1 : (intToBool ∘ boolToInt) = id := funext intToBool_boolToInt
  have h2 : ∀ row : List Bool,
      ((fun r => List.map intToBool r) ∘ fun r => List.map boolToInt r) row
        = id row := by
    intro row
    show List.map intToBool (List.map boolToInt row) = row
    rw [List.map_map, h1, List.map_id]
  rw [funext h2, List.map_id]

/-- C2: the serialisation round-trip — casting a boolean mask to
integers, writing the file, reading it back and casting to booleans —
reproduces the original mask exactly, cell for cell. -/
theorem write_read_roundtrip (m : Mask) :
    ((write_step (maskToObj m)).2).map read_step = some (maskToObj m) := by
  show some (read_step { grid := m.grid
                         data := m.data.map fun row => row.map boolToInt })
      = some (maskToObj m)
  simp only [read_step, map_read, Option.some.injEq]
  show ({ grid := m.grid
          data := astypeBool (astypeInt (.boolData m.data)) } : MapObj)
      = maskToObj m
  rw [astypeBool_astypeInt]
  rfl

/-- C10: the write procedure leaves the in-memory mask untouched — the
integer cast acts on the fresh object allocated by `copy`, so after the
write the variable `mask_map` (heap index 0) still holds the original
boolean data. -/
theorem write_step_frame (m : Mask) :
    ((write_step (maskToObj m)).1)[0]? = some (maskToObj m) := rfl

end ExclusionMask
